import Mathlib

/-!
Verification of the drone connection service (`src/app/main.py`).

The module is a FastAPI application holding three module-level globals:
`ser` (a pyserial handle), `mav_connection` (a pymavlink connection) and
`telemetry_data` (a dict placeholder, initialised to the empty dict).  Five
endpoints mutate or read these globals: `connect_drone`, `get_telemetry`,
`change_mode`, `send_command` and `disconnect_drone`.

The shallow embedding below models each endpoint as a pure function from an
environment (the behaviour of the external device, serial driver and
protocol library during that one call) and the current global state to a
result paired with the next global state.  Python rebinds the globals by
assignment; an object whose last reference is overwritten is never closed by
the garbage collector in any way visible to the program, so the embedding
keeps such dropped objects in ghost lists (`dropped_sers`, `dropped_mavs`)
to let us reason about handles that remain open after their global reference
was overwritten.  A call that never returns (an unbounded blocking wait) is
modelled by the explicit result `HttpResult.blocked`.
-/

/-- Python values that appear as MAVLink command parameters or dict values:
the source passes both numbers and raw strings. -/
inductive PyVal where
  | num (n : Int)
  | str (s : String)
deriving DecidableEq, Repr

/-- An inbound MAVLink message: its packet type and decoded fields, as
exposed by `msg.to_dict()`. -/
structure MavMsg where
  kind : String
  fields : List (String × PyVal)
deriving DecidableEq, Repr

/-- The dict returned by pymavlink `to_dict()`: the packet type plus the
decoded fields. -/
def MavMsg.to_dict (m : MavMsg) : List (String × PyVal) :=
  ("mavpackettype", PyVal.str m.kind) :: m.fields

/-- A pyserial `serial.Serial` handle: the port it was opened on, its baud
rate and whether the OS handle is currently open (`ser.is_open`). -/
structure SerialHandle where
  port : String
  baud : Nat
  is_open : Bool
deriving DecidableEq, Repr

/-- A MAVLink COMMAND_LONG frame as built by
`mav.command_long_send(target_system, target_component, command,
confirmation, p1..p7)`. -/
structure CmdFrame where
  target_system : Nat
  target_component : Nat
  command : Nat
  confirmation : Nat
  param1 : PyVal
  param2 : PyVal
  param3 : PyVal
  param4 : PyVal
  param5 : PyVal
  param6 : PyVal
  param7 : PyVal
deriving DecidableEq, Repr

/-- An outbound transmission on the MAVLink connection: either a
`set_mode(mode_id)` call or a COMMAND_LONG frame. -/
inductive SentItem where
  | setMode (mode_id : Nat)
  | cmdLong (frame : CmdFrame)
deriving DecidableEq, Repr

/-- A pymavlink connection object (`mavutil.mavlink_connection`): the port
and baud it was opened with, whether it is open, the target identifiers, the
per-connection flight-mode table returned by `mode_mapping()`, and the log
of frames written to the transport. -/
structure MavConn where
  port : String
  baud : Nat
  is_open : Bool
  target_system : Nat
  target_component : Nat
  mode_mapping : List (String × Nat)
  sent : List SentItem
deriving DecidableEq, Repr

/-- Request body of `POST /connect_drone` (`CommunicationConfig`). -/
structure CommunicationConfig where
  port : String
  baud_rate : Nat := 57600
deriving DecidableEq, Repr

/-- Request body of `POST /change_mode` (`DroneMode`). -/
structure DroneMode where
  mode_name : String
deriving DecidableEq, Repr

/-- External behaviour during a single endpoint call: whether the serial
open and the MAVLink open succeed, whether a heartbeat ever arrives, the
inbound message stream visible to `recv_match`, whether that stream is
closed once drained, whether `recv_match` raises, whether transport writes
succeed, and the identity the newly opened MAVLink connection reports. -/
structure Env where
  serial_ok : Bool
  mav_ok : Bool
  heartbeat : Bool
  inbound : List MavMsg
  stream_closed : Bool
  recv_error : Bool
  link_write_ok : Bool
  new_target_system : Nat
  new_target_component : Nat
  new_mode_mapping : List (String × Nat)
deriving DecidableEq, Repr

/-- The module-level globals of `src/app/main.py`, plus ghost lists of
serial handles and MAVLink connections whose global reference was
overwritten by assignment (Python drops them without closing them). -/
structure AppState where
  ser : Option SerialHandle
  mav_connection : Option MavConn
  telemetry_data : List (String × PyVal)
  dropped_sers : List SerialHandle
  dropped_mavs : List MavConn
deriving DecidableEq, Repr

/-- The state at process start: `ser = None`, `mav_connection = None`,
`telemetry_data = dict()`. -/
def initState : AppState :=
  { ser := none, mav_connection := none, telemetry_data := []
    dropped_sers := [], dropped_mavs := [] }

/-- Result of one endpoint call: a success payload, an
`HTTPException(status_code, detail)`, or a call that never returns because
it is stuck in an unbounded blocking wait. -/
inductive HttpResult where
  | ok (message : String)
  | okTelemetry (telemetry : List (String × PyVal))
  | httpError (status : Nat) (detail : String)
  | blocked
deriving DecidableEq, Repr

/-- MAVLink numeric identifier of MAV_CMD_DO_SET_MODE. -/
def MAV_CMD_DO_SET_MODE : Nat := 176

/-- Closing a serial handle in place (`ser.close()` when it is open,
otherwise no effect). -/
def closeSerial (h : SerialHandle) : SerialHandle :=
  if h.is_open then { h with is_open := false } else h

/-- Appends one outbound transmission to the connection write log. -/
def MavConn.push (m : MavConn) (it : SentItem) : MavConn :=
  { m with sent := m.sent ++ [it] }

/-- The frame built by the `command_long_send` call in `send_command`: the
command identifier is always MAV_CMD_DO_SET_MODE, confirmation 0, the
caller-supplied string is the first parameter and the remaining six
parameters are 0. -/
def doSetModeFrame (ts tc : Nat) (c : String) : CmdFrame :=
  { target_system := ts, target_component := tc
    command := MAV_CMD_DO_SET_MODE, confirmation := 0
    param1 := PyVal.str c
    param2 := PyVal.num 0, param3 := PyVal.num 0, param4 := PyVal.num 0
    param5 := PyVal.num 0, param6 := PyVal.num 0, param7 := PyVal.num 0 }

/-- Embeds `connect_drone` (src/app/main.py lines 35-56).  The body first
closes `ser` in place when it is open, then rebinds `ser` to a new
`serial.Serial` (a `SerialException` there is caught and mapped to HTTP
500), then rebinds `mav_connection` to a new `mavutil.mavlink_connection`
(a failure there is likewise caught; the previous connection object is
overwritten without being closed), then calls `wait_heartbeat()` with no
timeout argument, which blocks until a heartbeat arrives. -/
def connect_drone (cfg : CommunicationConfig) (env : Env) (s : AppState) :
    HttpResult × AppState :=
  let ser1 : Option SerialHandle := s.ser.map closeSerial
  let s1 : AppState := { s with ser := ser1 }
  if !env.serial_ok then
    (HttpResult.httpError 500 ("Connection error on " ++ cfg.port), s1)
  else
    let newSer : SerialHandle :=
      { port := cfg.port, baud := cfg.baud_rate, is_open := true }
    let s2 : AppState :=
      { s1 with ser := some newSer, dropped_sers := s1.dropped_sers ++ ser1.toList }
    if !env.mav_ok then
      (HttpResult.httpError 500 ("Connection error on " ++ cfg.port), s2)
    else
      let newMav : MavConn :=
        { port := cfg.port, baud := cfg.baud_rate, is_open := true
          target_system := env.new_target_system
          target_component := env.new_target_component
          mode_mapping := env.new_mode_mapping, sent := [] }
      let s3 : AppState :=
        { s2 with mav_connection := some newMav
                  dropped_mavs := s2.dropped_mavs ++ s2.mav_connection.toList }
      if env.heartbeat then
        (HttpResult.ok
          ("Connected to " ++ cfg.port ++ " at " ++ toString cfg.baud_rate ++ " bps"), s3)
      else
        (HttpResult.blocked, s3)

/-- Embeds `get_telemetry` (src/app/main.py lines 58-74).  With
`mav_connection` unset it raises HTTP 500; otherwise it calls
`recv_match(blocking=True)`, which returns the next pending inbound
message, returns `None` once the stream is closed and drained, and blocks
when no message is pending on an open stream.  A message is returned as
its dict.  When the receive yields `None`, the body raises
`HTTPException(404)` inside the `try`, but `HTTPException` subclasses
`Exception`, so the following `except Exception` clause catches it and
re-raises it as HTTP 500 with the stringified 404 in the detail — the 404
never reaches the caller.  An exception from the receive itself likewise
becomes HTTP 500. -/
def get_telemetry (env : Env) (s : AppState) : HttpResult × AppState :=
  match s.mav_connection with
  | none => (HttpResult.httpError 500 "No MAVLink connection established.", s)
  | some _ =>
    if env.recv_error then
      (HttpResult.httpError 500 "Error fetching telemetry", s)
    else
      match env.inbound with
      | msg :: _ => (HttpResult.okTelemetry msg.to_dict, s)
      | [] =>
        if env.stream_closed then
          (HttpResult.httpError 500
            "Error fetching telemetry: 404: No telemetry data available.", s)
        else
          (HttpResult.blocked, s)

/-- Embeds `change_mode` (src/app/main.py lines 76-93).  With
`mav_connection` unset it raises HTTP 500; otherwise it looks the mode name
up in `mode_mapping()` (a Python dict subscript: exact, case-sensitive; a
`KeyError` becomes HTTP 400), then calls `set_mode(mode_id)`, whose failure
becomes HTTP 500. -/
def change_mode (dm : DroneMode) (env : Env) (s : AppState) :
    HttpResult × AppState :=
  match s.mav_connection with
  | none => (HttpResult.httpError 500 "No MAVLink connection established.", s)
  | some m =>
    match m.mode_mapping.lookup dm.mode_name with
    | none => (HttpResult.httpError 400 ("Invalid mode: " ++ dm.mode_name), s)
    | some mode_id =>
      if env.link_write_ok then
        (HttpResult.ok ("Flight mode changed to " ++ dm.mode_name),
         { s with mav_connection := some (m.push (SentItem.setMode mode_id)) })
      else
        (HttpResult.httpError 500 "Error changing mode", s)

/-- Embeds `send_command` (src/app/main.py lines 95-117).  With
`mav_connection` unset it raises HTTP 500; otherwise it calls
`command_long_send(target_system, target_component, MAV_CMD_DO_SET_MODE, 0,
command, 0, 0, 0, 0, 0, 0)` — the command identifier is the constant
MAV_CMD_DO_SET_MODE and the caller-supplied string rides as the first
parameter; a failure of the write becomes HTTP 500. -/
def send_command (command : String) (env : Env) (s : AppState) :
    HttpResult × AppState :=
  match s.mav_connection with
  | none =>
    (HttpResult.httpError 500 "No active connection. Please connect first.", s)
  | some m =>
    if env.link_write_ok then
      let frame : CmdFrame :=
        doSetModeFrame m.target_system m.target_component command
      (HttpResult.ok ("Command " ++ command ++ " sent successfully"),
       { s with mav_connection := some (m.push (SentItem.cmdLong frame)) })
    else
      (HttpResult.httpError 500 "Error sending command", s)

/-- Embeds `disconnect_drone` (src/app/main.py lines 119-130).  It closes
`ser` in place when open (the global keeps pointing at the closed handle),
closes `mav_connection` when set and rebinds that global to `None` (the
closed object is dropped), and always returns the success message. -/
def disconnect_drone (s : AppState) : HttpResult × AppState :=
  let ser1 : Option SerialHandle := s.ser.map closeSerial
  match s.mav_connection with
  | some m =>
    (HttpResult.ok "Connection closed successfully",
     { s with ser := ser1, mav_connection := none
              dropped_mavs := s.dropped_mavs ++ [{ m with is_open := false }] })
  | none =>
    (HttpResult.ok "Connection closed successfully",
     { s with ser := ser1, mav_connection := none })

/-- One endpoint invocation together with the external behaviour it sees. -/
inductive Op where
  | connect (cfg : CommunicationConfig) (env : Env)
  | telemetry (env : Env)
  | changeMode (dm : DroneMode) (env : Env)
  | sendCmd (command : String) (env : Env)
  | disconnect
deriving DecidableEq, Repr

/-- Runs one endpoint invocation on the global state. -/
def runOp (op : Op) (s : AppState) : HttpResult × AppState :=
  match op with
  | Op.connect cfg env => connect_drone cfg env s
  | Op.telemetry env => get_telemetry env s
  | Op.changeMode dm env => change_mode dm env s
  | Op.sendCmd c env => send_command c env s
  | Op.disconnect => disconnect_drone s

/-- Runs a sequence of endpoint invocations from a starting state. -/
def runAll (ops : List Op) (s : AppState) : AppState :=
  ops.foldl (fun st op => (runOp op st).2) s

/-- All MAVLink connection objects the process ever created that are still
open: the one the global currently references plus any dropped ones. -/
def openMavs (s : AppState) : List MavConn :=
  (s.mav_connection.toList ++ s.dropped_mavs).filter (fun m => m.is_open)

/-- All serial handles the process ever created that are still open. -/
def openSers (s : AppState) : List SerialHandle :=
  (s.ser.toList ++ s.dropped_sers).filter (fun h => h.is_open)

/-- The write log of the currently referenced MAVLink connection. -/
def sentLog (s : AppState) : List SentItem :=
  match s.mav_connection with
  | some m => m.sent
  | none => []

/-- Environment in which everything external behaves: both opens succeed, a
heartbeat arrives, transport writes succeed, and no inbound telemetry
message is pending on the (open) stream. -/
def envAllOk : Env :=
  { serial_ok := true, mav_ok := true, heartbeat := true, inbound := []
    stream_closed := false, recv_error := false, link_write_ok := true
    new_target_system := 1, new_target_component := 1
    new_mode_mapping := [("STABILIZE", 0), ("GUIDED", 4)] }

/-- Environment where the device never sends a heartbeat. -/
def envNoHeartbeat : Env := { envAllOk with heartbeat := false }

/-- Environment where the serial open succeeds but the MAVLink open raises. -/
def envMavFail : Env := { envAllOk with mav_ok := false }

/-- Environment whose inbound stream is drained and closed. -/
def envClosedStream : Env := { envAllOk with stream_closed := true }

/-- A sample inbound attitude message. -/
def msgAttitude : MavMsg :=
  { kind := "ATTITUDE", fields := [("pitch", PyVal.num 1)] }

/-- Environment with one pending inbound message. -/
def envWithMsg : Env := { envAllOk with inbound := [msgAttitude] }

/-- An open serial handle on COM3. -/
def serCOM3 : SerialHandle := { port := "COM3", baud := 57600, is_open := true }

/-- An open MAVLink connection on COM3 with a two-entry mode table. -/
def mavCOM3 : MavConn :=
  { port := "COM3", baud := 57600, is_open := true
    target_system := 1, target_component := 1
    mode_mapping := [("STABILIZE", 0), ("GUIDED", 4)], sent := [] }

/-- A state with a live session on COM3. -/
def connectedCOM3 : AppState :=
  { ser := some serCOM3, mav_connection := some mavCOM3, telemetry_data := []
    dropped_sers := [], dropped_mavs := [] }

/-- Closing an already-closed serial handle changes nothing. -/
theorem closeSerial_closeSerial (h : SerialHandle) :
    closeSerial (closeSerial h) = closeSerial h := by
  cases hh : h.is_open <;> simp [closeSerial, hh]

/-- Closing the serial global twice equals closing it once. -/
theorem map_closeSerial_idem (o : Option SerialHandle) :
    Option.map closeSerial (Option.map closeSerial o) = Option.map closeSerial o := by
  cases o <;> simp [closeSerial_closeSerial]

/-- Composition form of the idempotence of closeSerial. -/
theorem closeSerial_comp : closeSerial ∘ closeSerial = closeSerial :=
  funext closeSerial_closeSerial

/-- The state after any get_telemetry call is the state before it. -/
theorem get_telemetry_state (env : Env) (s : AppState) :
    (get_telemetry env s).2 = s := by
  unfold get_telemetry
  cases s.mav_connection <;> simp
  cases env.recv_error <;> simp
  cases env.inbound <;> simp
  cases env.stream_closed <;> simp

/-- connect_drone never touches telemetry_data. -/
theorem connect_drone_telemetry (cfg : CommunicationConfig) (env : Env) (s : AppState) :
    ((connect_drone cfg env s).2).telemetry_data = s.telemetry_data := by
  unfold connect_drone
  cases env.serial_ok <;> cases env.mav_ok <;> cases env.heartbeat <;> simp

/-- change_mode never touches telemetry_data. -/
theorem change_mode_telemetry (dm : DroneMode) (env : Env) (s : AppState) :
    ((change_mode dm env s).2).telemetry_data = s.telemetry_data := by
  unfold change_mode
  cases s.mav_connection with
  | none => simp
  | some m =>
    rcases hl : List.lookup dm.mode_name m.mode_mapping with _ | mode_id
    · simp [hl]
    · cases env.link_write_ok <;> simp [hl]

/-- send_command never touches telemetry_data. -/
theorem send_command_telemetry (c : String) (env : Env) (s : AppState) :
    ((send_command c env s).2).telemetry_data = s.telemetry_data := by
  unfold send_command
  cases s.mav_connection <;> cases env.link_write_ok <;> simp

/-- disconnect_drone never touches telemetry_data. -/
theorem disconnect_drone_telemetry (s : AppState) :
    ((disconnect_drone s).2).telemetry_data = s.telemetry_data := by
  unfold disconnect_drone
  cases s.mav_connection <;> simp

/-- No single endpoint invocation changes telemetry_data. -/
theorem runOp_telemetry (op : Op) (s : AppState) :
    ((runOp op s).2).telemetry_data = s.telemetry_data := by
  cases op with
  | connect cfg env => exact connect_drone_telemetry cfg env s
  | telemetry env => rw [runOp, get_telemetry_state]
  | changeMode dm env => exact change_mode_telemetry dm env s
  | sendCmd c env => exact send_command_telemetry c env s
  | disconnect => exact disconnect_drone_telemetry s

/-- No sequence of endpoint invocations changes telemetry_data. -/
theorem runAll_telemetry (ops : List Op) (s : AppState) :
    (runAll ops s).telemetry_data = s.telemetry_data := by
  induction ops generalizing s with
  | nil => rfl
  | cons op rest ih =>
    rw [runAll, List.foldl_cons]
    exact ((ih (runOp op s).2).trans (runOp_telemetry op s))

/-- C9: the global telemetry_data mapping is never written: every endpoint
leaves it unchanged, it stays the empty mapping over the whole process
lifetime from the initial state, and the value get_telemetry returns is
independent of telemetry_data (it never comes from it). -/
theorem telemetry_data_never_written :
    (∀ op s, ((runOp op s).2).telemetry_data = s.telemetry_data) ∧
    (∀ ops, (runAll ops initState).telemetry_data = []) ∧
    (∀ env s td,
      (get_telemetry env { s with telemetry_data := td }).1 = (get_telemetry env s).1) := by
  refine ⟨runOp_telemetry, fun ops => (runAll_telemetry ops initState).trans rfl, ?_⟩
  intro env s td
  unfold get_telemetry
  cases s.mav_connection <;> simp
  cases env.recv_error <;> simp
  cases env.inbound <;> simp
  cases env.stream_closed <;> simp

/-- C7: disconnect_drone is idempotent: it always returns the success
acknowledgment, and a second call straight after leaves the state exactly
as the first call left it while returning the same acknowledgment. -/
theorem disconnect_idempotent (s : AppState) :
    (disconnect_drone s).1 = HttpResult.ok "Connection closed successfully" ∧
    disconnect_drone (disconnect_drone s).2 =
      (HttpResult.ok "Connection closed successfully", (disconnect_drone s).2) := by
  unfold disconnect_drone
  cases s.mav_connection <;> simp [map_closeSerial_idem, closeSerial_comp]

/-- C10: after disconnect_drone the MAVLink global is None, so every
subsequent telemetry, change_mode or send_command call fails with the
not-connected 500 error, while the serial global keeps referencing the
now-closed handle rather than being cleared. -/
theorem disconnect_clears_only_mav (s : AppState) :
    ((disconnect_drone s).2).mav_connection = none ∧
    (∀ env, (get_telemetry env (disconnect_drone s).2).1 =
      HttpResult.httpError 500 "No MAVLink connection established.") ∧
    (∀ dm env, (change_mode dm env (disconnect_drone s).2).1 =
      HttpResult.httpError 500 "No MAVLink connection established.") ∧
    (∀ c env, (send_command c env (disconnect_drone s).2).1 =
      HttpResult.httpError 500 "No active connection. Please connect first.") ∧
    ((disconnect_drone s).2).ser = s.ser.map closeSerial := by
  have hm : ((disconnect_drone s).2).mav_connection = none := by
    unfold disconnect_drone; cases s.mav_connection <;> simp
  refine ⟨hm, ?_, ?_, ?_, ?_⟩
  · intro env; unfold get_telemetry; rw [hm]
  · intro dm env; unfold change_mode; rw [hm]
  · intro c env; unfold send_command; rw [hm]
  · unfold disconnect_drone; cases s.mav_connection <;> simp

/-- C6: with a live session, change_mode resolves the mode name by exact
lookup in the per-connection mode table; an absent name yields the HTTP 400
invalid-mode error and leaves the whole state untouched, while a present
name sends set_mode with exactly the id the table holds. -/
theorem change_mode_exact_lookup (s : AppState) (m : MavConn) (env : Env)
    (name : String) (h : s.mav_connection = some m) :
    (m.mode_mapping.lookup name = none →
      change_mode ⟨name⟩ env s =
        (HttpResult.httpError 400 ("Invalid mode: " ++ name), s)) ∧
    (∀ mode_id, m.mode_mapping.lookup name = some mode_id →
      env.link_write_ok = true →
      change_mode ⟨name⟩ env s =
        (HttpResult.ok ("Flight mode changed to " ++ name),
         { s with mav_connection := some (m.push (SentItem.setMode mode_id)) })) := by
  constructor
  · intro hl; unfold change_mode; rw [h]; simp [hl]
  · intro mode_id hl hw; unfold change_mode; rw [h]; simp [hl, hw]

/-- Witness for change_mode_exact_lookup: on a live COM3 session whose mode
table holds GUIDED, the lower-case name guided is not found (the lookup is
case-sensitive) and the call returns HTTP 400 leaving the state unchanged,
while GUIDED resolves to id 4. -/
theorem change_mode_exact_lookup_witness :
    change_mode ⟨"guided"⟩ envAllOk connectedCOM3 =
      (HttpResult.httpError 400 ("Invalid mode: " ++ "guided"), connectedCOM3) ∧
    change_mode ⟨"GUIDED"⟩ envAllOk connectedCOM3 =
      (HttpResult.ok ("Flight mode changed to " ++ "GUIDED"),
       { connectedCOM3 with
         mav_connection := some (mavCOM3.push (SentItem.setMode 4)) }) :=
  ⟨(change_mode_exact_lookup connectedCOM3 mavCOM3 envAllOk "guided" rfl).1 (by decide),
   (change_mode_exact_lookup connectedCOM3 mavCOM3 envAllOk "GUIDED" rfl).2 4
     (by decide) rfl⟩

/-- C1: evaluating connect_drone while a session is live on COM3.  The call
succeeds, yet the prior MAVLink connection object — overwritten without
close() — is still open alongside the new one: two open MAVLink connections
(each owning a transport handle) exist afterwards, so the prior session was
not fully closed. -/
theorem connect_leaves_prior_mav_open :
    (connect_drone { port := "COM4" } envAllOk connectedCOM3).1 =
      HttpResult.ok ("Connected to " ++ "COM4" ++ " at " ++ toString 57600 ++ " bps") ∧
    (openMavs ((connect_drone { port := "COM4" } envAllOk connectedCOM3).2)).length = 2 ∧
    mavCOM3 ∈ openMavs ((connect_drone { port := "COM4" } envAllOk connectedCOM3).2) ∧
    mavCOM3.is_open = true := by
  refine ⟨by decide, by decide, ?_, by decide⟩
  decide

/-- C5: connect_drone on a reachable port whose device never sends a
heartbeat: wait_heartbeat is called with no timeout argument, so the call
blocks forever instead of failing with a bounded-timeout handshake error. -/
theorem connect_no_heartbeat_blocks :
    (connect_drone { port := "COM3" } envNoHeartbeat initState).1 =
      HttpResult.blocked := by
  decide

/-- C2 counterexample: immediately after a successful connect, before any
inbound message has arrived, get_telemetry does not return an empty
snapshot as a success: on an open stream with nothing pending it blocks,
and on a drained closed stream the internally raised 404 is caught by the
generic exception handler and surfaces as HTTP 500. -/
theorem telemetry_after_connect_not_empty :
    (get_telemetry envAllOk
      ((connect_drone { port := "COM3" } envAllOk initState).2)).1 =
      HttpResult.blocked ∧
    (get_telemetry envClosedStream
      ((connect_drone { port := "COM3" } envAllOk initState).2)).1 =
      HttpResult.httpError 500
        "Error fetching telemetry: 404: No telemetry data available." := by
  exact ⟨by decide, by decide⟩

/-- C2 (amended): get_telemetry with no live session fails with the
not-connected HTTP 500 error; with a live session but no inbound message
yet it does not return an empty snapshot: it blocks while the stream is
open, and once the receive yields nothing the internally raised 404 is
swallowed by the generic exception handler and the endpoint fails with
HTTP 500. -/
theorem telemetry_disconnected_vs_no_message (s : AppState) (env : Env) :
    (s.mav_connection = none →
      get_telemetry env s =
        (HttpResult.httpError 500 "No MAVLink connection established.", s)) ∧
    (∀ m, s.mav_connection = some m → env.recv_error = false →
      env.inbound = [] →
      get_telemetry env s =
        ((if env.stream_closed then
            HttpResult.httpError 500
              "Error fetching telemetry: 404: No telemetry data available."
          else HttpResult.blocked), s)) := by
  constructor
  · intro h; unfold get_telemetry; rw [h]
  · intro m hm hr hi
    unfold get_telemetry
    rw [hm, hr, hi]
    simp
    split <;> rfl

/-- Witness for telemetry_disconnected_vs_no_message: at process start the
call fails with the not-connected error, and on a live COM3 session with an
open empty stream the call blocks. -/
theorem telemetry_disconnected_vs_no_message_witness :
    get_telemetry envAllOk initState =
      (HttpResult.httpError 500 "No MAVLink connection established.", initState) ∧
    get_telemetry envAllOk connectedCOM3 = (HttpResult.blocked, connectedCOM3) := by
  refine ⟨(telemetry_disconnected_vs_no_message initState envAllOk).1 rfl, ?_⟩
  have h := (telemetry_disconnected_vs_no_message connectedCOM3 envAllOk).2
    mavCOM3 rfl rfl rfl
  simpa using h

/-- C3 counterexample: get_telemetry on a live session with no pending
inbound message blocks awaiting the next protocol message, refuting that a
telemetry read never blocks. -/
theorem telemetry_blocks_on_live_session :
    (get_telemetry envAllOk connectedCOM3).1 = HttpResult.blocked := by
  decide

/-- C3 (amended): get_telemetry on a live session is a blocking read of the
next inbound message from the MAVLink connection itself — there is no
background ingestor or maintained snapshot: the next pending message is
returned as its dict, and the call blocks when none is pending on an open
stream. -/
theorem telemetry_is_blocking_recv (s : AppState) (m : MavConn) (env : Env)
    (h : s.mav_connection = some m) (hr : env.recv_error = false) :
    (∀ msg rest, env.inbound = msg :: rest →
      get_telemetry env s = (HttpResult.okTelemetry msg.to_dict, s)) ∧
    (env.inbound = [] → env.stream_closed = false →
      get_telemetry env s = (HttpResult.blocked, s)) := by
  constructor
  · intro msg rest hi
    unfold get_telemetry
    rw [h, hr, hi]
    simp
  · intro hi hc
    unfold get_telemetry
    rw [h, hr, hi, hc]
    simp

/-- Witness for telemetry_is_blocking_recv: with one pending attitude
message the call returns that message as its dict, and with an open empty
stream it blocks. -/
theorem telemetry_is_blocking_recv_witness :
    get_telemetry envWithMsg connectedCOM3 =
      (HttpResult.okTelemetry msgAttitude.to_dict, connectedCOM3) ∧
    get_telemetry envAllOk connectedCOM3 = (HttpResult.blocked, connectedCOM3) :=
  ⟨(telemetry_is_blocking_recv connectedCOM3 mavCOM3 envWithMsg rfl rfl).1
      msgAttitude [] rfl,
   (telemetry_is_blocking_recv connectedCOM3 mavCOM3 envAllOk rfl rfl).2 rfl rfl⟩

/-- C4 counterexample: a connect attempt from process start where the
serial open succeeds and the MAVLink open fails returns the connection
error but leaves the just-opened serial handle open — a leaked open
transport handle after a failed connect. -/
theorem failed_connect_leaks_serial :
    (connect_drone { port := "COM3" } envMavFail initState).1 =
      HttpResult.httpError 500 ("Connection error on " ++ "COM3") ∧
    openSers ((connect_drone { port := "COM3" } envMavFail initState).2) =
      [{ port := "COM3", baud := 57600, is_open := true }] := by
  exact ⟨by decide, by decide⟩

/-- C4 (amended): from the disconnected state a connect attempt with no
reachable device fails with HTTP 500 and leaves the MAVLink global unset
(still disconnected).  A failed serial open acquires nothing new, but when
the serial open succeeds and the MAVLink open then fails, the just-opened
serial handle is left open rather than released; a second connect on the
same port can nevertheless succeed because connect first closes any open
serial handle. -/
theorem failed_connect_behavior (cfg : CommunicationConfig) (env env2 : Env)
    (s : AppState) (hm : s.mav_connection = none) :
    (env.serial_ok = false →
      connect_drone cfg env s =
        (HttpResult.httpError 500 ("Connection error on " ++ cfg.port),
         { s with ser := s.ser.map closeSerial })) ∧
    (env.serial_ok = true → env.mav_ok = false →
      (connect_drone cfg env s).1 =
        HttpResult.httpError 500 ("Connection error on " ++ cfg.port) ∧
      ((connect_drone cfg env s).2).mav_connection = none ∧
      ((connect_drone cfg env s).2).ser =
        some { port := cfg.port, baud := cfg.baud_rate, is_open := true } ∧
      (env2.serial_ok = true → env2.mav_ok = true → env2.heartbeat = true →
        (connect_drone cfg env2 ((connect_drone cfg env s).2)).1 =
          HttpResult.ok ("Connected to " ++ cfg.port ++ " at " ++
            toString cfg.baud_rate ++ " bps"))) := by
  constructor
  · intro hs
    unfold connect_drone
    rw [hs]
    simp
  · intro hs hv
    refine ⟨?_, ?_, ?_, ?_⟩
    · unfold connect_drone; rw [hs, hv]; simp
    · unfold connect_drone; rw [hs, hv]; simp [hm]
    · unfold connect_drone; rw [hs, hv]; simp
    · intro h2s h2v h2h
      unfold connect_drone
      rw [hs, hv, h2s, h2v, h2h]
      simp

/-- Witness for failed_connect_behavior: from process start, a connect on
COM3 whose MAVLink open fails returns the connection error, and an
immediately following connect on the same port with a reachable device
succeeds. -/
theorem failed_connect_behavior_witness :
    (connect_drone { port := "COM3" } envMavFail initState).1 =
      HttpResult.httpError 500 ("Connection error on " ++ "COM3") ∧
    (connect_drone { port := "COM3" } envAllOk
      ((connect_drone { port := "COM3" } envMavFail initState).2)).1 =
      HttpResult.ok ("Connected to " ++ "COM3" ++ " at " ++
        toString 57600 ++ " bps") := by
  have h := (failed_connect_behavior { port := "COM3" } envMavFail envAllOk
    initState rfl).2 rfl rfl
  exact ⟨h.1, h.2.2.2 rfl rfl rfl⟩

/-- C8 counterexample: two distinct instruction names both produce a
COMMAND_LONG frame whose command identifier is MAV_CMD_DO_SET_MODE — the
transmitted frame is not the protocol command frame for the instruction;
the instruction name is shipped as the first (nominally numeric) parameter
instead. -/
theorem send_command_id_constant :
    sentLog ((send_command "ARM" envAllOk connectedCOM3).2) =
      [SentItem.cmdLong (doSetModeFrame 1 1 "ARM")] ∧
    sentLog ((send_command "TAKEOFF" envAllOk connectedCOM3).2) =
      [SentItem.cmdLong (doSetModeFrame 1 1 "TAKEOFF")] ∧
    (doSetModeFrame 1 1 "ARM").command = MAV_CMD_DO_SET_MODE ∧
    (doSetModeFrame 1 1 "TAKEOFF").command = MAV_CMD_DO_SET_MODE ∧
    (doSetModeFrame 1 1 "ARM").param1 = PyVal.str "ARM" ∧
    "ARM" ≠ "TAKEOFF" := by
  refine ⟨by decide, by decide, by decide, by decide, by decide, by decide⟩

/-- C8 (amended): with no live session send_command fails with the
not-connected error; with a live session and a working transport it
transmits exactly one COMMAND_LONG frame whose command identifier is always
MAV_CMD_DO_SET_MODE, with the caller-supplied instruction string as first
parameter and zeros elsewhere — the command identifier does not depend on
the instruction, and the endpoint accepts no numeric parameters; a failed
transport write yields the HTTP 500 link error. -/
theorem send_command_behavior (c : String) (env : Env) (s : AppState) :
    (s.mav_connection = none →
      send_command c env s =
        (HttpResult.httpError 500 "No active connection. Please connect first.",
         s)) ∧
    (∀ m, s.mav_connection = some m → env.link_write_ok = true →
      send_command c env s =
        (HttpResult.ok ("Command " ++ c ++ " sent successfully"),
         { s with mav_connection := some (m.push (SentItem.cmdLong
             (doSetModeFrame m.target_system m.target_component c))) })) ∧
    (∀ m, s.mav_connection = some m → env.link_write_ok = false →
      send_command c env s =
        (HttpResult.httpError 500 "Error sending command", s)) := by
  refine ⟨?_, ?_, ?_⟩
  · intro h; unfold send_command; rw [h]
  · intro m hm hw; unfold send_command; rw [hm, hw]; simp
  · intro m hm hw; unfold send_command; rw [hm, hw]; simp

/-- Witness for send_command_behavior: with no session the call fails with
the not-connected error; on the live COM3 session the instruction ARM is
sent as a MAV_CMD_DO_SET_MODE frame carrying the string ARM as first
parameter. -/
theorem send_command_behavior_witness :
    send_command "ARM" envAllOk initState =
      (HttpResult.httpError 500 "No active connection. Please connect first.",
       initState) ∧
    send_command "ARM" envAllOk connectedCOM3 =
      (HttpResult.ok ("Command " ++ "ARM" ++ " sent successfully"),
       { connectedCOM3 with mav_connection := some (mavCOM3.push (SentItem.cmdLong
           (doSetModeFrame 1 1 "ARM"))) }) := by
  refine ⟨(send_command_behavior "ARM" envAllOk initState).1 rfl, ?_⟩
  exact (send_command_behavior "ARM" envAllOk connectedCOM3).2.1 mavCOM3 rfl rfl
